import Mathlib

/-!
Verification of the pairing/session core of RemoteCredentialRequestPOC.

Shallow embedding of `src/sdk/pake_handler.py` and `src/server/pairing_manager.py`.

Modelling conventions:
* Python `datetime` values are integers (seconds); `datetime.utcnow()` becomes an
  explicit `now : Int` environment field (one reading per manager call).
* Python `bytes` are `List Nat` (each entry < 256); Python `str` payloads that can
  carry arbitrary Unicode are `List Nat` of code points; identifiers and protocol
  text (codes, ids, base64 text) are Lean `String`.
* External libraries (SPAKE2, Fernet, the Bitwarden CLI driver, `json`,
  `datetime.fromisoformat`, RNG draws) are environment parameters: records of
  functions supplied to each operation, so theorems quantify over their behaviour.
  `base64`, UTF-8, and hex encoding are implemented concretely.
* Uncaught Python exceptions are the `.error` side of `Except PyErr`; returned
  result dicts are inductive result types.
* Python dicts used as tables become association lists with `alookup` / `ainsert`
  (replacing) / `aerase`; insertion order is not observed by any modelled code.
-/

/-- Python exception values (constructor = exception class, argument = message/key). -/
inductive PyErr where
  | keyError : String → PyErr
  | valueError : String → PyErr
  | runtimeError : String → PyErr
  | typeError : String → PyErr
  | attributeError : String → PyErr
  | unicodeEncodeError : PyErr
deriving DecidableEq, Repr

/-- Rendering of a Python exception as `str(e)` (used by f-strings in error paths).
For `KeyError` Python renders the quoted key; for the message-carrying classes the
message itself.  The exact class-specific decoration is immaterial to the code. -/
def pyErrStr : PyErr → String
  | .keyError k => "\x27" ++ k ++ "\x27"
  | .valueError m => m
  | .runtimeError m => m
  | .typeError m => m
  | .attributeError m => m
  | .unicodeEncodeError => "surrogates not allowed"

/-- JSON values as produced by `json.loads` (numbers restricted to integers;
no modelled code path depends on float semantics). -/
inductive JVal where
  | obj : List (String × JVal) → JVal
  | arr : List JVal → JVal
  | str : String → JVal
  | num : Int → JVal
  | bool : Bool → JVal
  | null : JVal

/-- Python `d[k]` on a parsed JSON value: `KeyError` on a dict without the key,
`TypeError` when subscripting a non-dict with a string key. -/
def JVal.getItem (j : JVal) (k : String) : Except PyErr JVal :=
  match j with
  | .obj kvs =>
    match kvs.lookup k with
    | some v => .ok v
    | none => .error (.keyError k)
  | _ => .error (.typeError "value is not subscriptable by a string key")

/-- Python `d.get(k)` (None as `Option.none`); `AttributeError` on non-dicts. -/
def JVal.pyGet (j : JVal) (k : String) : Except PyErr (Option JVal) :=
  match j with
  | .obj kvs => .ok (kvs.lookup k)
  | _ => .error (.attributeError "object has no attribute get")

/-- Python `d.get(k, default)`. -/
def JVal.pyGetD (j : JVal) (k : String) (d : JVal) : Except PyErr JVal :=
  (j.pyGet k).map (·.getD d)

/-- Python truthiness of an optional JSON value (`None`, `""`, `0`, `False`,
empty containers are falsy), as used by `if not username or not password`. -/
def jvalFalsy : Option JVal → Bool
  | none => true
  | some (.str s) => s.isEmpty
  | some (.num n) => n == 0
  | some (.bool b) => !b
  | some .null => true
  | some (.arr l) => l.isEmpty
  | some (.obj l) => l.isEmpty

/-! ### Association-list model of the manager's dict tables -/

def alookup {α : Type} (m : List (String × α)) (k : String) : Option α :=
  (m.find? (fun p => p.1 == k)).map (·.2)

def aerase {α : Type} (m : List (String × α)) (k : String) : List (String × α) :=
  m.filter (fun p => !(p.1 == k))

def ainsert {α : Type} (m : List (String × α)) (k : String) (v : α) : List (String × α) :=
  (k, v) :: aerase m k

theorem alookup_ainsert_self {α : Type} (m : List (String × α)) (k : String) (v : α) :
    alookup (ainsert m k v) k = some v := by
  simp [alookup, ainsert, List.find?]

theorem alookup_aerase_self {α : Type} (m : List (String × α)) (k : String) :
    alookup (aerase m k) k = none := by
  induction m with
  | nil => rfl
  | cons p rest ih =>
    simp only [aerase, List.filter] at ih ⊢
    by_cases h : p.1 = k
    · rw [show (!(p.1 == k)) = false by simp [h]]
      exact ih
    · rw [show (!(p.1 == k)) = true by simp [h]]
      simp only [alookup, List.find?] at ih ⊢
      rw [show (p.1 == k) = false by simp [h]]
      exact ih

/-! ### Byte-level codecs: standard base64, urlsafe base64, UTF-8, hex

These model the `base64`, `str.encode('utf-8')` / `bytes.decode('utf-8')` and
`secrets.token_hex` primitives the source calls. -/

/-- Standard-alphabet base64 digit for a 6-bit value. -/
def b64EncChar (n : Nat) : Char :=
  if n < 26 then Char.ofNat (65 + n)
  else if n < 52 then Char.ofNat (97 + (n - 26))
  else if n < 62 then Char.ofNat (48 + (n - 52))
  else if n = 62 then Char.ofNat 43
  else Char.ofNat 47

/-- Urlsafe-alphabet base64 digit ('+' and '/' replaced by '-' and '_'). -/
def b64uEncChar (n : Nat) : Char :=
  if n < 62 then b64EncChar n
  else if n = 62 then Char.ofNat 45
  else Char.ofNat 95

/-- Inverse of `b64EncChar` on the standard alphabet. -/
def b64DecChar (c : Char) : Option Nat :=
  let n := c.toNat
  if 65 ≤ n ∧ n ≤ 90 then some (n - 65)
  else if 97 ≤ n ∧ n ≤ 122 then some (n - 97 + 26)
  else if 48 ≤ n ∧ n ≤ 57 then some (n - 48 + 52)
  else if n = 43 then some 62
  else if n = 47 then some 63
  else none

/-- base64-encode a byte list (standard alphabet, '=' padding), as
`base64.b64encode`. -/
def b64encodeBytes : List Nat → List Char
  | [] => []
  | [a] =>
    [b64EncChar (a / 4), b64EncChar (a % 4 * 16), Char.ofNat 61, Char.ofNat 61]
  | [a, b] =>
    [b64EncChar (a / 4), b64EncChar (a % 4 * 16 + b / 16), b64EncChar (b % 16 * 4),
     Char.ofNat 61]
  | a :: b :: d :: rest =>
    b64EncChar (a / 4) :: b64EncChar (a % 4 * 16 + b / 16) ::
      b64EncChar (b % 16 * 4 + d / 64) :: b64EncChar (d % 64) :: b64encodeBytes rest

/-- urlsafe variant, as `base64.urlsafe_b64encode` (used for the Fernet key). -/
def b64uEncodeBytes : List Nat → List Char
  | [] => []
  | [a] =>
    [b64uEncChar (a / 4), b64uEncChar (a % 4 * 16), Char.ofNat 61, Char.ofNat 61]
  | [a, b] =>
    [b64uEncChar (a / 4), b64uEncChar (a % 4 * 16 + b / 16), b64uEncChar (b % 16 * 4),
     Char.ofNat 61]
  | a :: b :: d :: rest =>
    b64uEncChar (a / 4) :: b64uEncChar (a % 4 * 16 + b / 16) ::
      b64uEncChar (b % 16 * 4 + d / 64) :: b64uEncChar (d % 64) :: b64uEncodeBytes rest

/-- base64-decode (standard alphabet): groups of four characters, padding only in
the final group.  `none` models `binascii.Error`. -/
def b64decodeChars : List Char → Option (List Nat)
  | [] => some []
  | c1 :: c2 :: c3 :: c4 :: rest =>
    if c3 = Char.ofNat 61 ∧ c4 = Char.ofNat 61 then
      if rest = [] then
        match b64DecChar c1, b64DecChar c2 with
        | some s1, some s2 => some [s1 * 4 + s2 / 16]
        | _, _ => none
      else none
    else if c4 = Char.ofNat 61 then
      if rest = [] then
        match b64DecChar c1, b64DecChar c2, b64DecChar c3 with
        | some s1, some s2, some s3 => some [s1 * 4 + s2 / 16, s2 % 16 * 16 + s3 / 4]
        | _, _, _ => none
      else none
    else
      match b64DecChar c1, b64DecChar c2, b64DecChar c3, b64DecChar c4 with
      | some s1, some s2, some s3, some s4 =>
        (b64decodeChars rest).map
          (fun tl => (s1 * 4 + s2 / 16) :: (s2 % 16 * 16 + s3 / 4) :: (s3 % 4 * 64 + s4) :: tl)
      | _, _, _, _ => none
  | _ => none

def b64encodeStr (bs : List Nat) : String := ⟨b64encodeBytes bs⟩

def b64uEncodeStr (bs : List Nat) : String := ⟨b64uEncodeBytes bs⟩

def b64decodeStr (s : String) : Option (List Nat) := b64decodeChars s.data

/-- A Unicode scalar value Python will UTF-8-encode (surrogates excluded). -/
def isScalar (c : Nat) : Prop := c < 0xD800 ∨ (0xE000 ≤ c ∧ c < 0x110000)

instance (c : Nat) : Decidable (isScalar c) := by unfold isScalar; infer_instance

/-- UTF-8 encoding of one scalar value. -/
def utf8EncodeChar (c : Nat) : List Nat :=
  if c < 0x80 then [c]
  else if c < 0x800 then [0xC0 + c / 64, 0x80 + c % 64]
  else if c < 0x10000 then [0xE0 + c / 4096, 0x80 + c / 64 % 64, 0x80 + c % 64]
  else [0xF0 + c / 262144, 0x80 + c / 4096 % 64, 0x80 + c / 64 % 64, 0x80 + c % 64]

/-- Model of `str.encode('utf-8')` on a list of code points; Python raises
`UnicodeEncodeError` on surrogates. -/
def pyEncodeUtf8 (cs : List Nat) : Except PyErr (List Nat) :=
  if cs.all (fun c => decide (isScalar c)) then .ok (cs.flatMap utf8EncodeChar)
  else .error .unicodeEncodeError

/-- Strict UTF-8 decoding (`bytes.decode('utf-8')`); rejects stray continuation
bytes, overlong forms, surrogates and out-of-range values.  Continuation bytes
are accessed through `headD`/`tail` so the recursion stays first-order. -/
def utf8DecodeBytes : List Nat → Option (List Nat)
  | [] => some []
  | b :: rest =>
    if b < 0x80 then (utf8DecodeBytes rest).map (b :: ·)
    else if b < 0xC0 then none
    else if b < 0xE0 then
      if 1 ≤ rest.length ∧ (0x80 ≤ rest.headD 0 ∧ rest.headD 0 < 0xC0) ∧
          0x80 ≤ (b - 0xC0) * 64 + (rest.headD 0 - 0x80) then
        (utf8DecodeBytes rest.tail).map (((b - 0xC0) * 64 + (rest.headD 0 - 0x80)) :: ·)
      else none
    else if b < 0xF0 then
      if 2 ≤ rest.length ∧ (0x80 ≤ rest.headD 0 ∧ rest.headD 0 < 0xC0) ∧
          (0x80 ≤ rest.tail.headD 0 ∧ rest.tail.headD 0 < 0xC0) ∧
          0x800 ≤ (b - 0xE0) * 4096 + (rest.headD 0 - 0x80) * 64 + (rest.tail.headD 0 - 0x80) ∧
          ¬(0xD800 ≤ (b - 0xE0) * 4096 + (rest.headD 0 - 0x80) * 64 + (rest.tail.headD 0 - 0x80) ∧
            (b - 0xE0) * 4096 + (rest.headD 0 - 0x80) * 64 + (rest.tail.headD 0 - 0x80) < 0xE000) then
        (utf8DecodeBytes rest.tail.tail).map
          (((b - 0xE0) * 4096 + (rest.headD 0 - 0x80) * 64 + (rest.tail.headD 0 - 0x80)) :: ·)
      else none
    else if b < 0xF8 then
      if 3 ≤ rest.length ∧ (0x80 ≤ rest.headD 0 ∧ rest.headD 0 < 0xC0) ∧
          (0x80 ≤ rest.tail.headD 0 ∧ rest.tail.headD 0 < 0xC0) ∧
          (0x80 ≤ rest.tail.tail.headD 0 ∧ rest.tail.tail.headD 0 < 0xC0) ∧
          0x10000 ≤ (b - 0xF0) * 262144 + (rest.headD 0 - 0x80) * 4096 +
            (rest.tail.headD 0 - 0x80) * 64 + (rest.tail.tail.headD 0 - 0x80) ∧
          (b - 0xF0) * 262144 + (rest.headD 0 - 0x80) * 4096 +
            (rest.tail.headD 0 - 0x80) * 64 + (rest.tail.tail.headD 0 - 0x80) < 0x110000 then
        (utf8DecodeBytes rest.tail.tail.tail).map
          (((b - 0xF0) * 262144 + (rest.headD 0 - 0x80) * 4096 +
            (rest.tail.headD 0 - 0x80) * 64 + (rest.tail.tail.headD 0 - 0x80)) :: ·)
      else none
    else none
termination_by bs => bs.length
decreasing_by
  all_goals simp [List.length_tail] <;> omega

/-- Lowercase hex digit. -/
def hexChar (n : Nat) : Char :=
  if n < 10 then Char.ofNat (48 + n) else Char.ofNat (87 + n)

/-- Hex encoding of a byte list, as `bytes.hex()` / `secrets.token_hex`. -/
def hexEncodeBytes (bs : List Nat) : List Char :=
  bs.flatMap (fun b => [hexChar (b / 16), hexChar (b % 16)])

def hexEncodeStr (bs : List Nat) : String := ⟨hexEncodeBytes bs⟩

/-- Lean `String` to the UTF-8 bytes Python's `password.encode('utf-8')` yields. -/
def strToBytes (s : String) : List Nat :=
  (s.data.map Char.toNat).flatMap utf8EncodeChar

/-! ### PAKE handler (`src/sdk/pake_handler.py`)

The `spake2` and `cryptography.fernet` libraries are modelled as environment
records: a `SpakeInstance` is the object returned by `SPAKE2_A`/`SPAKE2_B`
(its per-instance randomness folded into the environment), a `FernetM` is a
constructed `Fernet` object whose per-message nonce is passed explicitly. -/

/-- A symmetric cipher object as built by `Fernet(key)`: `enc nonce plaintext`
is the token, `dec` recovers the plaintext or fails with a cause string.
Construction from the 44-character urlsafe-base64 encoding of a 32-byte key
cannot fail, so `mkFernet` below is total. -/
structure FernetM where
  enc : List Nat → List Nat → List Nat
  dec : List Nat → Except String (List Nat)

/-- A started SPAKE2 instance: `fin` is `instance.finish(msg_in)`, returning the
shared secret or failing with the library's error text. -/
structure SpakeInstance where
  fin : List Nat → Except String (List Nat)

/-- Library environment for the handler: `mkA`/`mkB` model
`SPAKE2_A(pw)` / `SPAKE2_B(pw)` followed by `.start()`, returning the outbound
message and the instance; `mkFernet` models `Fernet(fernet_key)`. -/
structure PakeEnv where
  mkA : List Nat → List Nat × SpakeInstance
  mkB : List Nat → List Nat × SpakeInstance
  mkFernet : String → FernetM

/-- The fields of `PAKEHandler.__init__` (`self.role`, `self._spake_instance`,
`self._shared_key`, `self._fernet`). -/
structure PAKEHandler where
  role : String
  spake_inst : Option SpakeInstance
  shared_key : Option (List Nat)
  fernet : Option FernetM

/-- `PAKEHandler(role)` after a successful role check. -/
def PAKEHandler.init (role : String) : PAKEHandler := ⟨role, none, none, none⟩

/-- `is_ready` (pake_handler.py lines 198-205). -/
def PAKEHandler.is_ready (h : PAKEHandler) : Bool := h.fernet.isSome

/-- `start_exchange` (pake_handler.py lines 71-107). -/
def PAKEHandler.start_exchange (env : PakeEnv) (h : PAKEHandler) (password : String) :
    Except PyErr (List Nat × PAKEHandler) :=
  if h.spake_inst.isSome then .error (.runtimeError "PAKE exchange already started")
  else
    let pw := strToBytes password
    let mi := if h.role == "client" then env.mkA pw else env.mkB pw
    .ok (mi.1, { h with spake_inst := some mi.2 })

/-- `finish_exchange` (pake_handler.py lines 109-147).  A completion failure is
re-raised as `ValueError` whose message appends the underlying cause `{e}` to the
static text. -/
def PAKEHandler.finish_exchange (env : PakeEnv) (h : PAKEHandler) (msg_in : List Nat) :
    Except PyErr PAKEHandler :=
  match h.spake_inst with
  | none => .error (.runtimeError "Must call start_exchange() first")
  | some inst =>
    if h.shared_key.isSome then .error (.runtimeError "PAKE exchange already completed")
    else
      match inst.fin msg_in with
      | .error e =>
        .error (.valueError ("PAKE exchange failed (wrong password or invalid message): " ++ e))
      | .ok sk =>
        .ok { h with shared_key := some sk,
                     fernet := some (env.mkFernet (b64uEncodeStr (sk.take 32))) }

/-- `encrypt` (pake_handler.py lines 149-169): UTF-8 encode, Fernet-encrypt,
base64-wrap. -/
def PAKEHandler.encrypt (h : PAKEHandler) (nonce : List Nat) (plaintext : List Nat) :
    Except PyErr String :=
  match h.fernet with
  | none => .error (.runtimeError "PAKE exchange not completed - call finish_exchange() first")
  | some f =>
    match pyEncodeUtf8 plaintext with
    | .error e => .error e
    | .ok bs => .ok (b64encodeStr (f.enc nonce bs))

/-- The body of `decrypt`'s try block: base64-decode, Fernet-decrypt, UTF-8
decode, any failure carrying its cause string. -/
def PAKEHandler.decryptAttempt (f : FernetM) (ciphertext : String) : Except String (List Nat) :=
  match b64decodeStr ciphertext with
  | none => .error "Invalid base64-encoded string"
  | some enc =>
    match f.dec enc with
    | .error e => .error e
    | .ok ptBytes =>
      match utf8DecodeBytes ptBytes with
      | none => .error "invalid utf-8 sequence"
      | some pt => .ok pt

/-- `decrypt` (pake_handler.py lines 171-196). -/
def PAKEHandler.decrypt (h : PAKEHandler) (ciphertext : String) : Except PyErr (List Nat) :=
  match h.fernet with
  | none => .error (.runtimeError "PAKE exchange not completed - call finish_exchange() first")
  | some f =>
    match PAKEHandler.decryptAttempt f ciphertext with
    | .error e => .error (.valueError ("Decryption failed (wrong key or tampered data): " ++ e))
    | .ok pt => .ok pt

/-! ### Pairing manager data model (`src/server/pairing_manager.py` lines 26-62) -/

/-- `PairingState` dataclass. -/
structure PairingState where
  agent_id : String
  agent_name : String
  pairing_code : String
  created_at : Int
  expires_at : Int
  agent_pake_message : Option (List Nat)
  user_entered : Bool
  bitwarden_session_token : Option String
deriving DecidableEq, Repr

/-- `Session` dataclass.  `bitwarden_session_token` is typed `str` in the source
but receives `pairing.bitwarden_session_token : Optional[str]` unchecked at
promotion, so it is modelled as `Option String`. -/
structure Session where
  session_id : String
  agent_id : String
  agent_name : String
  pake_handler : PAKEHandler
  bitwarden_session_token : Option String
  created_at : Int
  last_access : Int
  expires_at : Int

abbrev PendingMap := List (String × PairingState)
abbrev SessionMap := List (String × Session)

/-- Result dict of `exchange_pake_message`. -/
inductive ExchResult where
  | waiting
  | success (session_id : String) (pake_message : String) (agent_id : String)
  | errorMsg (error : String)
deriving DecidableEq, Repr

/-- Result dict of `handle_credential_request`. -/
inductive CredResult where
  | approved (encrypted_payload : String)
  | denied (error : String)
  | errorMsg (error : String)
deriving DecidableEq, Repr

/-- Calls made to the Bitwarden vault driver, recorded as a trace. -/
inductive VaultCall where
  | listItems (domain : JVal) (token : Option String)
  | lockVault

/-- Dict returned by the approval callback's `handle_credential_request`. -/
structure CallbackResult where
  approved : Bool
  error : Option String

/-- The registered callback handler's `handle_credential_request(session, domain,
reason)` method (an external UI object). -/
abbrev CallbackHandler := Session → JVal → JVal → CallbackResult

/-- `str.rstrip('Z')`. -/
def rstripZ (s : String) : String :=
  ⟨(s.data.reverse.dropWhile (fun c => c == Char.ofNat 90)).reverse⟩

/-- Status dict of `get_session_status`. -/
structure SessionStatus where
  active : Bool
  agent_name : String
  last_access : String
  expires_at : String
deriving DecidableEq, Repr

/-! ### Round-trip facts about the codecs -/

theorem b64DecChar_b64EncChar : ∀ n, n < 64 → b64DecChar (b64EncChar n) = some n := by
  decide

theorem b64EncChar_ne_pad : ∀ n, n < 64 → b64EncChar n ≠ Char.ofNat 61 := by
  decide

theorem b64decode_encode :
    ∀ (bs : List Nat), (∀ b ∈ bs, b < 256) →
      b64decodeChars (b64encodeBytes bs) = some bs
  | [], _ => rfl
  | [a], hb => by
    have ha : a < 256 := hb a (by simp)
    simp only [b64encodeBytes, b64decodeChars,
      b64DecChar_b64EncChar (a / 4) (by omega),
      b64DecChar_b64EncChar (a % 4 * 16) (by omega),
      if_true, and_self, and_true, Option.some.injEq, List.cons.injEq]
    omega
  | [a, b], hb => by
    have ha : a < 256 := hb a (by simp)
    have hbb : b < 256 := hb b (by simp)
    simp only [b64encodeBytes, b64decodeChars,
      b64EncChar_ne_pad (b % 16 * 4) (by omega),
      b64DecChar_b64EncChar (a / 4) (by omega),
      b64DecChar_b64EncChar (a % 4 * 16 + b / 16) (by omega),
      b64DecChar_b64EncChar (b % 16 * 4) (by omega),
      if_true, false_and, if_false, Option.some.injEq, List.cons.injEq, and_true]
    omega
  | a :: b :: d :: rest, hb => by
    have ha : a < 256 := hb a (by simp)
    have hbb : b < 256 := hb b (by simp)
    have hd : d < 256 := hb d (by simp)
    have hrest : ∀ x ∈ rest, x < 256 := fun x hx => hb x (by simp [hx])
    simp only [b64encodeBytes, b64decodeChars,
      b64decode_encode rest hrest,
      b64EncChar_ne_pad (b % 16 * 4 + d / 64) (by omega),
      b64EncChar_ne_pad (d % 64) (by omega),
      b64DecChar_b64EncChar (a / 4) (by omega),
      b64DecChar_b64EncChar (a % 4 * 16 + b / 16) (by omega),
      b64DecChar_b64EncChar (b % 16 * 4 + d / 64) (by omega),
      b64DecChar_b64EncChar (d % 64) (by omega),
      if_true, false_and, if_false, Option.map_some', Option.some.injEq,
      List.cons.injEq, and_true]
    omega

theorem b64decodeStr_encodeStr (bs : List Nat) (hb : ∀ b ∈ bs, b < 256) :
    b64decodeStr (b64encodeStr bs) = some bs := by
  simpa [b64decodeStr, b64encodeStr] using b64decode_encode bs hb

theorem utf8_char_roundtrip (c : Nat) (hc : isScalar c) (rest : List Nat) :
    utf8DecodeBytes (utf8EncodeChar c ++ rest) = (utf8DecodeBytes rest).map (c :: ·) := by
  rcases Nat.lt_or_ge c 0x80 with h1 | h1
  · unfold utf8EncodeChar
    rw [if_pos h1]
    rw [List.cons_append, List.nil_append]
    conv_lhs => rw [utf8DecodeBytes.eq_def]
    simp only [List.headD_cons, List.tail_cons, List.length_cons]
    rw [if_pos h1]
  · rcases Nat.lt_or_ge c 0x800 with h2 | h2
    · unfold utf8EncodeChar
      rw [if_neg (by omega), if_pos h2]
      rw [List.cons_append, List.cons_append, List.nil_append]
      conv_lhs => rw [utf8DecodeBytes.eq_def]
      simp only [List.headD_cons, List.tail_cons, List.length_cons]
      rw [if_neg (by omega), if_neg (by omega), if_pos (by omega),
        if_pos ⟨by omega, ⟨by omega, by omega⟩, by omega⟩]
      have : (0xC0 + c / 64 - 0xC0) * 64 + (0x80 + c % 64 - 0x80) = c := by omega
      rw [this]
    · rcases Nat.lt_or_ge c 0x10000 with h3 | h3
      · have hs : c < 0xD800 ∨ 0xE000 ≤ c := by
          rcases hc with h | h
          · exact Or.inl h
          · exact Or.inr h.1
        unfold utf8EncodeChar
        rw [if_neg (by omega), if_neg (by omega), if_pos h3]
        rw [List.cons_append, List.cons_append, List.cons_append, List.nil_append]
        conv_lhs => rw [utf8DecodeBytes.eq_def]
        simp only [List.headD_cons, List.tail_cons, List.length_cons]
        rw [if_neg (by omega), if_neg (by omega), if_neg (by omega), if_pos (by omega),
          if_pos ⟨by omega, ⟨by omega, by omega⟩, ⟨by omega, by omega⟩, by omega, by omega⟩]
        have : (0xE0 + c / 4096 - 0xE0) * 4096 + (0x80 + c / 64 % 64 - 0x80) * 64 +
            (0x80 + c % 64 - 0x80) = c := by omega
        rw [this]
      · have h4 : c < 0x110000 := by
          rcases hc with h | h
          · omega
          · exact h.2
        unfold utf8EncodeChar
        rw [if_neg (by omega), if_neg (by omega), if_neg (by omega)]
        rw [List.cons_append, List.cons_append, List.cons_append, List.cons_append,
          List.nil_append]
        conv_lhs => rw [utf8DecodeBytes.eq_def]
        simp only [List.headD_cons, List.tail_cons, List.length_cons]
        rw [if_neg (by omega), if_neg (by omega), if_neg (by omega), if_neg (by omega),
          if_pos (by omega),
          if_pos ⟨by omega, ⟨by omega, by omega⟩, ⟨by omega, by omega⟩,
            ⟨by omega, by omega⟩, by omega, by omega⟩]
        have : (0xF0 + c / 262144 - 0xF0) * 262144 + (0x80 + c / 4096 % 64 - 0x80) * 4096 +
            (0x80 + c / 64 % 64 - 0x80) * 64 + (0x80 + c % 64 - 0x80) = c := by omega
        rw [this]

theorem utf8_roundtrip (cs : List Nat) (h : ∀ c ∈ cs, isScalar c) :
    utf8DecodeBytes (cs.flatMap utf8EncodeChar) = some cs := by
  induction cs with
  | nil => simp [utf8DecodeBytes]
  | cons c rest ih =>
    rw [List.flatMap_cons, utf8_char_roundtrip c (h c (by simp)) _,
      ih (fun x hx => h x (by simp [hx]))]
    rfl

theorem hexEncodeBytes_length (bs : List Nat) :
    (hexEncodeBytes bs).length = 2 * bs.length := by
  induction bs with
  | nil => rfl
  | cons b rest ih =>
    simp only [hexEncodeBytes, List.flatMap_cons] at ih ⊢
    simp [ih]
    omega

/-- Characters `0-9a-f`. -/
def isHexDigitChar (c : Char) : Bool :=
  (48 ≤ c.toNat && c.toNat ≤ 57) || (97 ≤ c.toNat && c.toNat ≤ 102)

theorem hexChar_isHexDigit : ∀ n, n < 16 → isHexDigitChar (hexChar n) = true := by
  decide

theorem hexEncodeBytes_hex (bs : List Nat) (hb : ∀ b ∈ bs, b < 256) :
    ∀ c ∈ hexEncodeBytes bs, isHexDigitChar c = true := by
  induction bs with
  | nil => intro c hc; cases hc
  | cons b rest ih =>
    intro c hc
    have hb256 : b < 256 := hb b (by simp)
    simp only [hexEncodeBytes, List.flatMap_cons, List.mem_append, List.mem_cons,
      List.mem_singleton, List.not_mem_nil] at hc
    rcases hc with (h | h | h) | h
    · rw [h]; exact hexChar_isHexDigit (b / 16) (by omega)
    · rw [h]; exact hexChar_isHexDigit (b % 16) (by omega)
    · cases h
    · exact ih (fun x hx => hb x (by simp [hx])) c h

/-! ### Pairing manager operations (`src/server/pairing_manager.py`) -/

/-- Environment for `create_pairing`: the clock and the draw made by
`secrets.randbelow(900000)`. -/
structure CreateEnv where
  now : Int
  randbelow900000 : Nat

/-- `create_pairing` (pairing_manager.py lines 100-134).  The UI callback
`on_pairing_created` is notification-only and does not touch manager state. -/
def create_pairing (env : CreateEnv) (pendings : PendingMap)
    (agent_id : String) (agent_name : String) :
    (String × Int) × PendingMap :=
  let pairing_code := toString (env.randbelow900000 + 100000)
  let expires_at := env.now + 5 * 60
  let st : PairingState :=
    { agent_id := agent_id, agent_name := agent_name, pairing_code := pairing_code,
      created_at := env.now, expires_at := expires_at,
      agent_pake_message := none, user_entered := false,
      bitwarden_session_token := none }
  ((pairing_code, expires_at), ainsert pendings pairing_code st)

/-- Environment for `mark_user_entered_code`: the clock and the vault driver's
`unlock` (`.error` is any raised exception, including a wrong master password). -/
structure MarkEnv where
  now : Int
  unlock : String → Except String String

/-- `mark_user_entered_code` (pairing_manager.py lines 136-186). -/
def mark_user_entered_code (env : MarkEnv) (pendings : PendingMap)
    (pairing_code : String) (master_password : String) : Bool × PendingMap :=
  match alookup pendings pairing_code with
  | none => (false, pendings)
  | some pairing =>
    if env.now > pairing.expires_at then
      (false, aerase pendings pairing_code)
    else
      match env.unlock master_password with
      | .error _ => (false, pendings)
      | .ok session_token =>
        (true, ainsert pendings pairing_code
          { pairing with bitwarden_session_token := some session_token,
                         user_entered := true })

/-- Environment for `exchange_pake_message`: the clock, the SPAKE2/Fernet
libraries, and the 16 bytes drawn by `secrets.token_hex(16)`. -/
structure ExchEnv where
  now : Int
  pake : PakeEnv
  token_hex16 : List Nat

/-- `exchange_pake_message` (pairing_manager.py lines 188-272).  Only
`ValueError` from `finish_exchange` is caught (mapped to the constant
"PAKE exchange failed" result); other exceptions propagate. -/
def exchange_pake_message (env : ExchEnv) (pendings : PendingMap) (sessions : SessionMap)
    (pairing_code : String) (msg_in_a : String) :
    Except PyErr (ExchResult × PendingMap × SessionMap) :=
  match alookup pendings pairing_code with
  | none => .ok (.errorMsg "Invalid pairing code", pendings, sessions)
  | some pairing0 =>
    if env.now > pairing0.expires_at then
      .ok (.errorMsg "Pairing code expired", aerase pendings pairing_code, sessions)
    else
      match b64decodeStr msg_in_a with
      | none => .error (.valueError "Invalid base64-encoded string")
      | some mbytes =>
        let pairing := { pairing0 with agent_pake_message := some mbytes }
        let pendings1 := ainsert pendings pairing_code pairing
        if !pairing.user_entered then
          .ok (.waiting, pendings1, sessions)
        else
          match PAKEHandler.start_exchange env.pake (PAKEHandler.init "server") pairing_code with
          | .error e => .error e
          | .ok msg_hdl =>
            match PAKEHandler.finish_exchange env.pake msg_hdl.2 mbytes with
            | .error (.valueError _) =>
              .ok (.errorMsg "PAKE exchange failed", pendings1, sessions)
            | .error e => .error e
            | .ok hdl2 =>
              let session_id := "sess_" ++ hexEncodeStr env.token_hex16
              let session : Session :=
                { session_id := session_id, agent_id := pairing.agent_id,
                  agent_name := pairing.agent_name, pake_handler := hdl2,
                  bitwarden_session_token := pairing.bitwarden_session_token,
                  created_at := env.now, last_access := env.now,
                  expires_at := env.now + 30 * 60 }
              .ok (.success session_id (b64encodeStr msg_hdl.1) pairing.agent_id,
                aerase pendings1 pairing_code, ainsert sessions session_id session)

/-- Environment for `handle_credential_request`: the clock, `json.loads`,
`datetime.fromisoformat` (`none` = `ValueError`), Python `str()` rendering for
f-strings, `datetime.isoformat`, the vault driver's `list_items` (`.error` = any
raised exception), and the RNG draws used to build the response payload. -/
structure CredEnv where
  now : Int
  json_loads : List Nat → Except String JVal
  fromiso : String → Option Int
  render : JVal → String
  isofmt : Int → String
  list_items : JVal → Option String → Except PyErr (List JVal)
  cred_nonce_hex : String
  enc_nonce : List Nat
  json_dumps : JVal → List Nat

/-- Python `item.get("type") == 1` (JSON `true` also compares equal to `1`). -/
def isVaultLoginType : Option JVal → Bool
  | some (.num n) => n == 1
  | some (.bool b) => b
  | _ => false

/-- `next((item for item in items if item.get("type") == 1), None)`; a non-dict
item reached during the scan raises `AttributeError` (caught by the caller's
try block). -/
def findLoginItem : List JVal → Except PyErr (Option JVal)
  | [] => .ok none
  | item :: rest =>
    match item with
    | .obj kvs =>
      if isVaultLoginType (kvs.lookup "type") then .ok (some item)
      else findLoginItem rest
    | _ => .error (.attributeError "object has no attribute get")

/-- Body of the vault-retrieval try block of `handle_credential_request`
(pairing_manager.py lines 339-387). -/
def vaultAttempt (env : CredEnv) (session : Session) (domain : JVal) :
    Except PyErr CredResult :=
  match env.list_items domain session.bitwarden_session_token with
  | .error e => .error e
  | .ok items =>
    match findLoginItem items with
    | .error e => .error e
    | .ok none => .ok (.errorMsg ("No credential found for " ++ env.render domain))
    | .ok (some loginItem) =>
      match loginItem.pyGetD "login" (.obj []) with
      | .error e => .error e
      | .ok login =>
        match login.pyGet "username" with
        | .error e => .error e
        | .ok username =>
          match login.pyGet "password" with
          | .error e => .error e
          | .ok password =>
            if jvalFalsy username || jvalFalsy password then
              .ok (.errorMsg "Incomplete credential (missing username or password)")
            else
              match session.pake_handler.encrypt env.enc_nonce
                  (env.json_dumps (JVal.obj
                    [("username", username.getD .null),
                     ("password", password.getD .null),
                     ("timestamp", .str (env.isofmt env.now ++ "Z")),
                     ("nonce", .str env.cred_nonce_hex)])) with
              | .error e => .error e
              | .ok encrypted_cred => .ok (.approved encrypted_cred)

/-- The vault-retrieval try/except: any exception inside maps to
`error("Vault access failed: {e}")` (pairing_manager.py lines 389-394). -/
def vaultRetrieve (env : CredEnv) (session : Session) (domain : JVal) : CredResult :=
  match vaultAttempt env session domain with
  | .error e => .errorMsg ("Vault access failed: " ++ pyErrStr e)
  | .ok r => r

/-- `handle_credential_request` (pairing_manager.py lines 274-403).  The try
block covers only `decrypt` and `json.loads`; the subsequent subscript accesses
`request_data['timestamp']` / `['domain']` / `['reason']`, the `rstrip` call and
`fromisoformat` sit outside it, so their exceptions propagate to the caller. -/
def handle_credential_request (env : CredEnv) (callback : Option CallbackHandler)
    (sessions : SessionMap) (session_id : String) (encrypted_payload : String) :
    Except PyErr (CredResult × SessionMap × List VaultCall) :=
  match alookup sessions session_id with
  | none => .ok (.errorMsg "Invalid or expired session", sessions, [])
  | some session0 =>
    let session := { session0 with last_access := env.now }
    let sessions1 := ainsert sessions session_id session
    if env.now > session.expires_at then
      .ok (.errorMsg "Session expired", aerase sessions1 session_id, [])
    else
      match session.pake_handler.decrypt encrypted_payload with
      | .error _ => .ok (.errorMsg "Decryption failed", sessions1, [])
      | .ok plaintext =>
        match env.json_loads plaintext with
        | .error _ => .ok (.errorMsg "Decryption failed", sessions1, [])
        | .ok request_data =>
          match request_data.getItem "timestamp" with
          | .error e => .error e
          | .ok (.str ts_str) =>
            match env.fromiso (rstripZ ts_str) with
            | none => .error (.valueError "Invalid isoformat string")
            | some ts =>
              if env.now - ts > 300 then
                .ok (.errorMsg "Request too old (possible replay attack)", sessions1, [])
              else
                match callback with
                | none => .ok (.errorMsg "No approval handler registered", sessions1, [])
                | some cb =>
                  match request_data.getItem "domain" with
                  | .error e => .error e
                  | .ok domain =>
                    match request_data.getItem "reason" with
                    | .error e => .error e
                    | .ok reason =>
                      let result := cb session domain reason
                      if result.approved then
                        .ok (vaultRetrieve env session domain, sessions1,
                          [VaultCall.listItems domain session.bitwarden_session_token])
                      else
                        .ok (.denied (result.error.getD "User denied"), sessions1, [])
          | .ok _ => .error (.attributeError "object has no attribute rstrip")

/-- `get_session_status` (pairing_manager.py lines 427-447): a pure lookup that
does not consult the clock. -/
def get_session_status (isofmt : Int → String) (sessions : SessionMap)
    (session_id : String) : Option SessionStatus :=
  (alookup sessions session_id).map fun s =>
    { active := true, agent_name := s.agent_name,
      last_access := isofmt s.last_access ++ "Z",
      expires_at := isofmt s.expires_at ++ "Z" }

/-! ### Auxiliary facts for the PAKE claims -/

theorem utf8EncodeChar_lt_256 (c : Nat) (hc : isScalar c) :
    ∀ b ∈ utf8EncodeChar c, b < 256 := by
  intro b hb
  have hc' : c < 0x110000 := by
    rcases hc with h | h
    · omega
    · exact h.2
  unfold utf8EncodeChar at hb
  rcases Nat.lt_or_ge c 0x80 with h1 | h1
  · rw [if_pos h1] at hb
    simp at hb
    omega
  · rw [if_neg (by omega)] at hb
    rcases Nat.lt_or_ge c 0x800 with h2 | h2
    · rw [if_pos h2] at hb
      simp at hb
      omega
    · rw [if_neg (by omega)] at hb
      rcases Nat.lt_or_ge c 0x10000 with h3 | h3
      · rw [if_pos h3] at hb
        simp at hb
        omega
      · rw [if_neg (by omega)] at hb
        simp at hb
        omega

theorem utf8EncodeList_lt_256 (cs : List Nat) (h : ∀ c ∈ cs, isScalar c) :
    ∀ b ∈ cs.flatMap utf8EncodeChar, b < 256 := by
  intro b hb
  rcases List.mem_flatMap.mp hb with ⟨c, hc, hbc⟩
  exact utf8EncodeChar_lt_256 c (h c hc) b hbc

/-- Identity cipher: a concrete `FernetM` satisfying the library's round-trip
contract, used to instantiate witnesses. -/
def fernetIdW : FernetM := { enc := fun _ m => m, dec := fun t => .ok t }

/-- A concrete environment for witness instantiations of the PAKE operations. -/
def pakeEnvW : PakeEnv :=
  { mkA := fun _ => ([], ⟨fun _ => .ok []⟩),
    mkB := fun _ => ([], ⟨fun _ => .ok []⟩),
    mkFernet := fun _ => fernetIdW }

/-- A handler that has started but not finished its exchange. -/
def pakeStartedW : PAKEHandler :=
  { role := "client", spake_inst := some ⟨fun _ => .ok []⟩, shared_key := none,
    fernet := none }

/-- A handler that has completed its exchange. -/
def pakeReadyW : PAKEHandler :=
  { role := "server", spake_inst := some ⟨fun _ => .ok []⟩, shared_key := some [],
    fernet := some fernetIdW }

/-- C8: every operation outside the linear state machine NEW → STARTED → READY
raises a state error: `start_exchange` again after a start, `finish_exchange`
before a start or after completion, and `encrypt`/`decrypt` before completion
all raise `RuntimeError` with the source's message. -/
theorem pake_state_machine (env : PakeEnv) (h : PAKEHandler) (password : String)
    (msg nonce pt : List Nat) (ct : String) :
    (h.spake_inst.isSome = true →
      PAKEHandler.start_exchange env h password =
        .error (.runtimeError "PAKE exchange already started")) ∧
    (h.spake_inst = none →
      PAKEHandler.finish_exchange env h msg =
        .error (.runtimeError "Must call start_exchange() first")) ∧
    (h.spake_inst.isSome = true → h.shared_key.isSome = true →
      PAKEHandler.finish_exchange env h msg =
        .error (.runtimeError "PAKE exchange already completed")) ∧
    (h.fernet = none →
      PAKEHandler.encrypt h nonce pt =
        .error (.runtimeError "PAKE exchange not completed - call finish_exchange() first")) ∧
    (h.fernet = none →
      PAKEHandler.decrypt h ct =
        .error (.runtimeError "PAKE exchange not completed - call finish_exchange() first")) := by
  refine ⟨?_, ?_, ?_, ?_, ?_⟩
  · intro hs
    unfold PAKEHandler.start_exchange
    rw [if_pos hs]
  · intro hs
    unfold PAKEHandler.finish_exchange
    rw [hs]
  · intro hs hk
    rcases Option.isSome_iff_exists.mp hs with ⟨inst, hi⟩
    unfold PAKEHandler.finish_exchange
    simp only [hi, hk, if_true]
  · intro hf
    unfold PAKEHandler.encrypt
    rw [hf]
  · intro hf
    unfold PAKEHandler.decrypt
    rw [hf]

/-- Witness for C8 at concrete handlers. -/
theorem pake_state_machine_witness :
    PAKEHandler.start_exchange pakeEnvW pakeStartedW "123456" =
      .error (.runtimeError "PAKE exchange already started") ∧
    PAKEHandler.finish_exchange pakeEnvW (PAKEHandler.init "client") [] =
      .error (.runtimeError "Must call start_exchange() first") ∧
    PAKEHandler.finish_exchange pakeEnvW pakeReadyW [] =
      .error (.runtimeError "PAKE exchange already completed") ∧
    PAKEHandler.encrypt (PAKEHandler.init "client") [] [] =
      .error (.runtimeError "PAKE exchange not completed - call finish_exchange() first") ∧
    PAKEHandler.decrypt (PAKEHandler.init "client") "" =
      .error (.runtimeError "PAKE exchange not completed - call finish_exchange() first") :=
  ⟨(pake_state_machine pakeEnvW pakeStartedW "123456" [] [] [] "").1 rfl,
   (pake_state_machine pakeEnvW (PAKEHandler.init "client") "x" [] [] [] "").2.1 rfl,
   (pake_state_machine pakeEnvW pakeReadyW "x" [] [] [] "").2.2.1 rfl rfl,
   (pake_state_machine pakeEnvW (PAKEHandler.init "client") "x" [] [] [] "").2.2.2.1 rfl,
   (pake_state_machine pakeEnvW (PAKEHandler.init "client") "x" [] [] [] "").2.2.2.2 rfl⟩

/-- C9: for a handler that has completed its exchange (`fernet` present, which
is exactly `is_ready`), and a Fernet object meeting the library contract
(byte-valued tokens, decryption inverts encryption), `decrypt (encrypt x) = x`
for every Python string `x` of Unicode scalar values — the handler's own UTF-8
and base64 layers are proved concretely. -/
theorem pake_roundtrip (h : PAKEHandler) (f : FernetM) (nonce x : List Nat)
    (hf : h.fernet = some f)
    (hfb : ∀ n m, (∀ b ∈ m, b < 256) → ∀ b ∈ f.enc n m, b < 256)
    (hfd : ∀ n m, (∀ b ∈ m, b < 256) → f.dec (f.enc n m) = .ok m)
    (hx : ∀ c ∈ x, isScalar c) :
    (PAKEHandler.encrypt h nonce x).bind (PAKEHandler.decrypt h) = .ok x := by
  have hxall : x.all (fun c => decide (isScalar c)) = true := by
    rw [List.all_eq_true]
    intro c hc
    exact decide_eq_true (hx c hc)
  have hbytes : ∀ b ∈ x.flatMap utf8EncodeChar, b < 256 := utf8EncodeList_lt_256 x hx
  have hcbytes : ∀ b ∈ f.enc nonce (x.flatMap utf8EncodeChar), b < 256 :=
    hfb nonce _ hbytes
  unfold PAKEHandler.encrypt pyEncodeUtf8
  rw [hf, if_pos hxall]
  show (PAKEHandler.decrypt h (b64encodeStr (f.enc nonce (x.flatMap utf8EncodeChar)))) = .ok x
  unfold PAKEHandler.decrypt PAKEHandler.decryptAttempt
  simp only [hf, b64decodeStr_encodeStr _ hcbytes, hfd nonce _ hbytes, utf8_roundtrip x hx]

/-- Witness for C9: the ready handler with the identity cipher round-trips a
concrete Unicode string (includes a 4-byte code point). -/
theorem pake_roundtrip_witness :
    (PAKEHandler.encrypt pakeReadyW [7] [104, 105, 128512]).bind
      (PAKEHandler.decrypt pakeReadyW) = .ok [104, 105, 128512] :=
  pake_roundtrip pakeReadyW fernetIdW [7] [104, 105, 128512] rfl
    (fun _ _ hm => hm) (fun _ _ _ => rfl) (by decide)

/-- SPAKE2 completion failing with the library's "off sides" cause. -/
def spakeInstOffSides : SpakeInstance := ⟨fun _ => .error "off sides"⟩

/-- SPAKE2 completion failing with a malformed-element cause. -/
def spakeInstBadPoint : SpakeInstance := ⟨fun _ => .error "invalid point"⟩

/-- C3 counterexample: `finish_exchange` re-raises with the underlying cause
appended, so two distinct failure causes produce two distinct caller-visible
`ValueError` messages — the error raised by `finish_exchange` is not the bare
generic "PAKE exchange failed" and does depend on the cause. -/
theorem pake_failure_message_depends_on_cause :
    PAKEHandler.finish_exchange pakeEnvW
      { role := "server", spake_inst := some spakeInstOffSides, shared_key := none,
        fernet := none } [0] =
      .error (.valueError
        "PAKE exchange failed (wrong password or invalid message): off sides") ∧
    PAKEHandler.finish_exchange pakeEnvW
      { role := "server", spake_inst := some spakeInstBadPoint, shared_key := none,
        fernet := none } [0] =
      .error (.valueError
        "PAKE exchange failed (wrong password or invalid message): invalid point") ∧
    ("PAKE exchange failed (wrong password or invalid message): off sides" : String) ≠
      "PAKE exchange failed (wrong password or invalid message): invalid point" :=
  ⟨rfl, rfl, by decide⟩

/-- C3 (amended): the SDK-level `ValueError` of `finish_exchange` appends the
underlying cause to a fixed generic text, so it differs between causes; it is
`exchange_pake_message` that catches it and returns the constant
`error("PAKE exchange failed")` to its caller, identical for every cause. -/
theorem pake_failure_generic_to_peer (env : ExchEnv) (pendings : PendingMap)
    (sessions : SessionMap) (code msg : String) (pairing : PairingState)
    (mbytes : List Nat) (e : String)
    (hp : alookup pendings code = some pairing)
    (hexp : ¬ env.now > pairing.expires_at)
    (hb : b64decodeStr msg = some mbytes)
    (hu : pairing.user_entered = true)
    (hfin : ((env.pake.mkB (strToBytes code)).2.fin mbytes) = .error e) :
    exchange_pake_message env pendings sessions code msg =
      .ok (.errorMsg "PAKE exchange failed",
        ainsert pendings code { pairing with agent_pake_message := some mbytes },
        sessions) := by
  unfold exchange_pake_message
  simp only [hp]
  rw [if_neg hexp]
  simp only [hb, hu, Bool.not_true, Bool.false_eq_true, if_false]
  unfold PAKEHandler.start_exchange PAKEHandler.init PAKEHandler.finish_exchange
  simp only [Option.isSome_none, Bool.false_eq_true, if_false,
    show (("server" : String) == "client") = false from by decide, hfin]

/-- A pending pairing whose code the human has entered (vault unlocked). -/
def pairingEnteredW : PairingState :=
  { agent_id := "a1", agent_name := "A1", pairing_code := "123456",
    created_at := 0, expires_at := 300, agent_pake_message := none,
    user_entered := true, bitwarden_session_token := some "T" }

/-- Exchange environment whose SPAKE2 responder completion fails. -/
def exchEnvFailW : ExchEnv :=
  { now := 0,
    pake := { mkA := fun _ => ([], ⟨fun _ => .ok []⟩),
              mkB := fun _ => ([], spakeInstOffSides),
              mkFernet := fun _ => fernetIdW },
    token_hex16 := [] }

/-- Witness for C3's amended theorem: a concrete failing completion yields the
constant peer-visible error. -/
theorem pake_failure_generic_to_peer_witness :
    exchange_pake_message exchEnvFailW [("123456", pairingEnteredW)] [] "123456" "" =
      .ok (.errorMsg "PAKE exchange failed",
        ainsert [("123456", pairingEnteredW)] "123456"
          { pairingEnteredW with agent_pake_message := some [] },
        []) :=
  pake_failure_generic_to_peer exchEnvFailW [("123456", pairingEnteredW)] []
    "123456" "" pairingEnteredW [] "off sides" rfl (by decide) rfl rfl rfl

/-- C4: a successful promotion returns `sess_` + 32 hex characters, moves the
pairing's vault token into a session expiring 30 minutes from now, and deletes
the pairing entry. -/
theorem exchange_success_creates_session (env : ExchEnv) (pendings : PendingMap)
    (sessions : SessionMap) (code msg : String) (pairing : PairingState)
    (mbytes sk : List Nat)
    (hp : alookup pendings code = some pairing)
    (hexp : ¬ env.now > pairing.expires_at)
    (hb : b64decodeStr msg = some mbytes)
    (hu : pairing.user_entered = true)
    (hfin : (env.pake.mkB (strToBytes code)).2.fin mbytes = .ok sk)
    (hlen : env.token_hex16.length = 16)
    (hbytes : ∀ b ∈ env.token_hex16, b < 256) :
    exchange_pake_message env pendings sessions code msg =
      .ok (.success ("sess_" ++ hexEncodeStr env.token_hex16)
            (b64encodeStr (env.pake.mkB (strToBytes code)).1) pairing.agent_id,
        aerase (ainsert pendings code { pairing with agent_pake_message := some mbytes })
          code,
        ainsert sessions ("sess_" ++ hexEncodeStr env.token_hex16)
          { session_id := "sess_" ++ hexEncodeStr env.token_hex16,
            agent_id := pairing.agent_id, agent_name := pairing.agent_name,
            pake_handler :=
              { role := "server",
                spake_inst := some (env.pake.mkB (strToBytes code)).2,
                shared_key := some sk,
                fernet := some (env.pake.mkFernet (b64uEncodeStr (sk.take 32))) },
            bitwarden_session_token := pairing.bitwarden_session_token,
            created_at := env.now, last_access := env.now,
            expires_at := env.now + 30 * 60 }) ∧
    (hexEncodeStr env.token_hex16).length = 32 ∧
    (∀ ch ∈ (hexEncodeStr env.token_hex16).data, isHexDigitChar ch = true) ∧
    alookup
      (aerase (ainsert pendings code { pairing with agent_pake_message := some mbytes })
        code) code = none := by
  refine ⟨?_, ?_, ?_, alookup_aerase_self _ _⟩
  · unfold exchange_pake_message
    simp only [hp]
    rw [if_neg hexp]
    simp only [hb, hu, Bool.not_true, Bool.false_eq_true, if_false]
    unfold PAKEHandler.start_exchange PAKEHandler.init PAKEHandler.finish_exchange
    simp only [Option.isSome_none, Bool.false_eq_true, if_false,
      show (("server" : String) == "client") = false from by decide, hfin]
  · show (hexEncodeBytes env.token_hex16).length = 32
    rw [hexEncodeBytes_length, hlen]
  · show ∀ ch ∈ hexEncodeBytes env.token_hex16, isHexDigitChar ch = true
    exact hexEncodeBytes_hex env.token_hex16 hbytes

/-- Exchange environment for a succeeding promotion. -/
def exchEnvOkW : ExchEnv :=
  { now := 0,
    pake := { mkA := fun _ => ([], ⟨fun _ => .ok []⟩),
              mkB := fun _ => ([1, 2], ⟨fun _ => .ok (List.replicate 32 7)⟩),
              mkFernet := fun _ => fernetIdW },
    token_hex16 := List.replicate 16 171 }

/-- Witness for C4 at a concrete promotion. -/
theorem exchange_success_creates_session_witness :
    exchange_pake_message exchEnvOkW [("123456", pairingEnteredW)] [] "123456" "" =
      .ok (.success ("sess_" ++ hexEncodeStr exchEnvOkW.token_hex16)
            (b64encodeStr (exchEnvOkW.pake.mkB (strToBytes "123456")).1)
            pairingEnteredW.agent_id,
        aerase (ainsert [("123456", pairingEnteredW)] "123456"
          { pairingEnteredW with agent_pake_message := some [] }) "123456",
        ainsert [] ("sess_" ++ hexEncodeStr exchEnvOkW.token_hex16)
          { session_id := "sess_" ++ hexEncodeStr exchEnvOkW.token_hex16,
            agent_id := pairingEnteredW.agent_id,
            agent_name := pairingEnteredW.agent_name,
            pake_handler :=
              { role := "server",
                spake_inst := some (exchEnvOkW.pake.mkB (strToBytes "123456")).2,
                shared_key := some (List.replicate 32 7),
                fernet := some (exchEnvOkW.pake.mkFernet
                  (b64uEncodeStr ((List.replicate 32 7).take 32))) },
            bitwarden_session_token := pairingEnteredW.bitwarden_session_token,
            created_at := 0, last_access := 0, expires_at := 0 + 30 * 60 }) ∧
    (hexEncodeStr exchEnvOkW.token_hex16).length = 32 ∧
    (∀ ch ∈ (hexEncodeStr exchEnvOkW.token_hex16).data, isHexDigitChar ch = true) ∧
    alookup (aerase (ainsert [("123456", pairingEnteredW)] "123456"
      { pairingEnteredW with agent_pake_message := some [] }) "123456") "123456" = none :=
  exchange_success_creates_session exchEnvOkW [("123456", pairingEnteredW)] []
    "123456" "" pairingEnteredW [] (List.replicate 32 7) rfl (by decide) rfl rfl rfl
    (by decide) (by decide)

/-- The pending pairing a colliding draw will overwrite. -/
def pairingOldW : PairingState :=
  { agent_id := "old-agent", agent_name := "Old", pairing_code := "123456",
    created_at := 0, expires_at := 300, agent_pake_message := none,
    user_entered := false, bitwarden_session_token := none }

/-- C6 counterexample: `create_pairing` has no collision check — when the RNG
draw collides with an existing pending code, the dict assignment replaces the
existing entry, so `create_pairing` does overwrite it (no redraw occurs). -/
theorem create_pairing_overwrites_on_collision :
    (create_pairing { now := 10, randbelow900000 := 23456 }
        [("123456", pairingOldW)] "new-agent" "New").2 =
      [("123456",
        { agent_id := "new-agent", agent_name := "New", pairing_code := "123456",
          created_at := 10, expires_at := 310, agent_pake_message := none,
          user_entered := false, bitwarden_session_token := none })] ∧
    alookup ((create_pairing { now := 10, randbelow900000 := 23456 }
        [("123456", pairingOldW)] "new-agent" "New").2) "123456" ≠ some pairingOldW := by
  constructor
  · decide
  · decide

/-- C6 (amended): the pairing code is `secrets.randbelow(900000) + 100000`,
hence always in [100000, 999999] (uniformity is the library contract of
`secrets.randbelow`); the new `PairingState` is stored under the code by plain
dict assignment, which replaces any colliding entry rather than redrawing. -/
theorem create_pairing_code_range (env : CreateEnv) (pendings : PendingMap)
    (aid an : String) (hr : env.randbelow900000 < 900000) :
    100000 ≤ env.randbelow900000 + 100000 ∧
    env.randbelow900000 + 100000 ≤ 999999 ∧
    (create_pairing env pendings aid an).1.1 = toString (env.randbelow900000 + 100000) ∧
    (create_pairing env pendings aid an).1.2 = env.now + 5 * 60 ∧
    alookup (create_pairing env pendings aid an).2
        (toString (env.randbelow900000 + 100000)) =
      some { agent_id := aid, agent_name := an,
             pairing_code := toString (env.randbelow900000 + 100000),
             created_at := env.now, expires_at := env.now + 5 * 60,
             agent_pake_message := none, user_entered := false,
             bitwarden_session_token := none } := by
  refine ⟨by omega, by omega, rfl, rfl, ?_⟩
  exact alookup_ainsert_self _ _ _

/-- Witness for C6's amended theorem at a concrete draw. -/
theorem create_pairing_code_range_witness :
    100000 ≤ 23456 + 100000 ∧
    23456 + 100000 ≤ 999999 ∧
    (create_pairing { now := 10, randbelow900000 := 23456 } [] "a1" "A1").1.1 =
      toString (23456 + 100000) ∧
    (create_pairing { now := 10, randbelow900000 := 23456 } [] "a1" "A1").1.2 =
      (10 : Int) + 5 * 60 ∧
    alookup (create_pairing { now := 10, randbelow900000 := 23456 } [] "a1" "A1").2
        (toString (23456 + 100000)) =
      some { agent_id := "a1", agent_name := "A1",
             pairing_code := toString (23456 + 100000),
             created_at := 10, expires_at := (10 : Int) + 5 * 60,
             agent_pake_message := none, user_entered := false,
             bitwarden_session_token := none } :=
  create_pairing_code_range { now := 10, randbelow900000 := 23456 } [] "a1" "A1"
    (by decide)

/-- A pending pairing the human has not yet acted on. -/
def pairingFreshW : PairingState :=
  { agent_id := "a1", agent_name := "A1", pairing_code := "654321",
    created_at := 0, expires_at := 300, agent_pake_message := none,
    user_entered := false, bitwarden_session_token := none }

/-- C7: when the vault driver's unlock raises (wrong master password included),
`mark_user_entered_code` returns false and leaves `pending_pairings` unchanged —
the pairing stays with `user_entered = false` and no stored token — and a
subsequent `exchange_pake_message` on the code still returns waiting. -/
theorem mark_code_unlock_failure_preserves_state (menv : MarkEnv) (xenv : ExchEnv)
    (pendings : PendingMap) (sessions : SessionMap) (code pw msg : String)
    (pairing : PairingState) (mbytes : List Nat) (e : String)
    (hp : alookup pendings code = some pairing)
    (hexp : ¬ menv.now > pairing.expires_at)
    (hunlock : menv.unlock pw = .error e)
    (hu : pairing.user_entered = false)
    (ht : pairing.bitwarden_session_token = none)
    (hexp2 : ¬ xenv.now > pairing.expires_at)
    (hb : b64decodeStr msg = some mbytes) :
    mark_user_entered_code menv pendings code pw = (false, pendings) ∧
    exchange_pake_message xenv pendings sessions code msg =
      .ok (.waiting,
        ainsert pendings code { pairing with agent_pake_message := some mbytes },
        sessions) := by
  constructor
  · unfold mark_user_entered_code
    simp only [hp]
    rw [if_neg hexp]
    simp only [hunlock]
  · unfold exchange_pake_message
    simp only [hp]
    rw [if_neg hexp2]
    simp only [hb, hu, Bool.not_false, if_true]

/-- Witness for C7 at a concrete failing unlock. -/
theorem mark_code_unlock_failure_preserves_state_witness :
    mark_user_entered_code
        { now := 0, unlock := fun _ => .error "Incorrect master password" }
        [("654321", pairingFreshW)] "654321" "wrong" =
      (false, [("654321", pairingFreshW)]) ∧
    exchange_pake_message exchEnvOkW [("654321", pairingFreshW)] [] "654321" "" =
      .ok (.waiting,
        ainsert [("654321", pairingFreshW)] "654321"
          { pairingFreshW with agent_pake_message := some [] },
        []) :=
  mark_code_unlock_failure_preserves_state
    { now := 0, unlock := fun _ => .error "Incorrect master password" }
    exchEnvOkW [("654321", pairingFreshW)] [] "654321" "wrong" ""
    pairingFreshW [] "Incorrect master password"
    rfl (by decide) rfl rfl rfl (by decide) rfl

/-- An established session bound to the ready handler (vault token "T"). -/
def sessW : Session :=
  { session_id := "sess_w", agent_id := "agent-1", agent_name := "Agent 1",
    pake_handler := pakeReadyW, bitwarden_session_token := some "T",
    created_at := 0, last_access := 0, expires_at := 1800 }

/-- A fully-populated decrypted request object. -/
def rdFullW : JVal :=
  .obj [("timestamp", .str "2025-01-01T00:00:00.000000Z"),
        ("domain", .str "github.com"), ("reason", .str "login"),
        ("agent_id", .str "agent-1"), ("agent_name", .str "Agent 1"),
        ("nonce", .str "0011223344556677")]

/-- Baseline credential-request environment: well-formed request JSON, timely
timestamp, empty vault. -/
def credEnvW : CredEnv :=
  { now := 0,
    json_loads := fun _ => .ok rdFullW,
    fromiso := fun _ => some 0,
    render := fun j => match j with | .str t => t | _ => "",
    isofmt := fun _ => "1970-01-01T00:00:00",
    list_items := fun _ _ => .ok [],
    cred_nonce_hex := "8899aabbccddeeff",
    enc_nonce := [],
    json_dumps := fun _ => [] }

/-- An already-expired session still sitting in `active_sessions`. -/
def sessExpiredW : Session :=
  { session_id := "sess_x", agent_id := "agent-2", agent_name := "AgentX",
    pake_handler := PAKEHandler.init "server", bitwarden_session_token := some "T",
    created_at := 0, last_access := 0, expires_at := 100 }

/-- C5 counterexample: with the clock at 1000, well past the stored session's
`expires_at = 100`, `get_session_status` still reports the session (it never
checks expiry), instead of returning null as the claim requires. -/
theorem session_status_ignores_expiry :
    sessExpiredW.expires_at < 1000 ∧
    get_session_status (fun _ => "TS") [("sess_x", sessExpiredW)] "sess_x" =
      some { active := true, agent_name := "AgentX", last_access := "TSZ",
             expires_at := "TSZ" } :=
  ⟨by decide, rfl⟩

/-- C5 (amended): `handle_credential_request` does refuse a past-expiry session
(returning "Session expired" and deleting it), but `get_session_status` performs
a plain lookup with no expiry check: any session still present in
`active_sessions` — even one whose `expires_at` is in the past — is reported
with `active = true` until a sweep or revoke removes it. -/
theorem session_expiry_enforcement (env : CredEnv) (cb : Option CallbackHandler)
    (fmt : Int → String) (sessions : SessionMap) (sid payload : String) (s : Session)
    (hs : alookup sessions sid = some s) (hexp : env.now > s.expires_at) :
    handle_credential_request env cb sessions sid payload =
      .ok (.errorMsg "Session expired",
        aerase (ainsert sessions sid { s with last_access := env.now }) sid, []) ∧
    alookup (aerase (ainsert sessions sid { s with last_access := env.now }) sid) sid =
      none ∧
    get_session_status fmt sessions sid =
      some { active := true, agent_name := s.agent_name,
             last_access := fmt s.last_access ++ "Z",
             expires_at := fmt s.expires_at ++ "Z" } := by
  refine ⟨?_, alookup_aerase_self _ _, ?_⟩
  · unfold handle_credential_request
    simp only [hs]
    rw [if_pos hexp]
  · unfold get_session_status
    simp only [hs, Option.map_some']

/-- Witness for C5's amended theorem on a concrete expired session. -/
theorem session_expiry_enforcement_witness :
    handle_credential_request { credEnvW with now := 9999 } none
        [("sess_x", sessExpiredW)] "sess_x" "payload" =
      .ok (.errorMsg "Session expired",
        aerase (ainsert [("sess_x", sessExpiredW)] "sess_x"
          { sessExpiredW with last_access := 9999 }) "sess_x", []) ∧
    alookup (aerase (ainsert [("sess_x", sessExpiredW)] "sess_x"
      { sessExpiredW with last_access := 9999 }) "sess_x") "sess_x" = none ∧
    get_session_status (fun _ => "TS") [("sess_x", sessExpiredW)] "sess_x" =
      some { active := true, agent_name := sessExpiredW.agent_name,
             last_access := "TS" ++ "Z", expires_at := "TS" ++ "Z" } :=
  session_expiry_enforcement { credEnvW with now := 9999 } none (fun _ => "TS")
    [("sess_x", sessExpiredW)] "sess_x" "payload" sessExpiredW rfl (by decide)

/-- C10: with no callback handler registered, a valid, unexpired session and a
well-formed, timely request yield `error("No approval handler registered")`,
the vault is never contacted (empty vault-call trace), and the only change to
`active_sessions` is the session's refreshed `last_access`. -/
theorem no_callback_handler_error (env : CredEnv) (sessions : SessionMap)
    (sid payload : String) (s : Session) (pt : List Nat) (rd : JVal)
    (ts_str : String) (ts : Int)
    (hs : alookup sessions sid = some s)
    (hexp : ¬ env.now > s.expires_at)
    (hdec : s.pake_handler.decrypt payload = .ok pt)
    (hjson : env.json_loads pt = .ok rd)
    (hts : rd.getItem "timestamp" = .ok (.str ts_str))
    (hiso : env.fromiso (rstripZ ts_str) = some ts)
    (hage : ¬ env.now - ts > 300) :
    handle_credential_request env none sessions sid payload =
      .ok (.errorMsg "No approval handler registered",
        ainsert sessions sid { s with last_access := env.now }, []) := by
  unfold handle_credential_request
  simp only [hs]
  rw [if_neg hexp]
  simp only [hdec, hjson, hts, hiso]
  rw [if_neg hage]

/-- The session's ready handler decrypts the empty payload to the empty
plaintext (identity cipher). -/
theorem sessW_decrypt_empty : sessW.pake_handler.decrypt "" = .ok [] := by
  unfold sessW pakeReadyW PAKEHandler.decrypt PAKEHandler.decryptAttempt fernetIdW
  simp [b64decodeStr, b64decodeChars, utf8DecodeBytes]

/-- Witness for C10 on a concrete valid session and request. -/
theorem no_callback_handler_error_witness :
    handle_credential_request credEnvW none [("sess_w", sessW)] "sess_w" "" =
      .ok (.errorMsg "No approval handler registered",
        ainsert [("sess_w", sessW)] "sess_w" { sessW with last_access := 0 }, []) :=
  no_callback_handler_error credEnvW [("sess_w", sessW)] "sess_w" "" sessW [] _
    "2025-01-01T00:00:00.000000Z" 0 rfl (by decide) sessW_decrypt_empty rfl rfl rfl
    (by decide)

/-- Environment whose decrypted payload parses to a JSON object with no fields. -/
def credEnvNoTsW : CredEnv := { credEnvW with json_loads := fun _ => .ok (.obj []) }

/-- C2 (amended): a decryption failure or a JSON parse failure yields
`error("Decryption failed")`, but a payload that decrypts and parses to a JSON
object without a `timestamp` field is outside the try block's protection:
`request_data['timestamp']` raises an uncaught `KeyError` instead of returning
the "Decryption failed" error (missing `domain`/`reason` likewise raise at the
approval step, and `agent_id`/`agent_name`/`nonce` are never checked). -/
theorem decryption_failure_vs_missing_field (env : CredEnv)
    (cb : Option CallbackHandler) (sessions : SessionMap) (sid payload : String)
    (s : Session)
    (hs : alookup sessions sid = some s)
    (hexp : ¬ env.now > s.expires_at) :
    (∀ e, s.pake_handler.decrypt payload = .error e →
      handle_credential_request env cb sessions sid payload =
        .ok (.errorMsg "Decryption failed",
          ainsert sessions sid { s with last_access := env.now }, [])) ∧
    (∀ pt pe, s.pake_handler.decrypt payload = .ok pt →
      env.json_loads pt = .error pe →
      handle_credential_request env cb sessions sid payload =
        .ok (.errorMsg "Decryption failed",
          ainsert sessions sid { s with last_access := env.now }, [])) ∧
    (∀ pt kvs, s.pake_handler.decrypt payload = .ok pt →
      env.json_loads pt = .ok (.obj kvs) → kvs.lookup "timestamp" = none →
      handle_credential_request env cb sessions sid payload =
        .error (.keyError "timestamp")) := by
  refine ⟨?_, ?_, ?_⟩
  · intro e he
    unfold handle_credential_request
    simp only [hs]
    rw [if_neg hexp]
    simp only [he]
  · intro pt pe h1 h2
    unfold handle_credential_request
    simp only [hs]
    rw [if_neg hexp]
    simp only [h1, h2]
  · intro pt kvs h1 h2 h3
    unfold handle_credential_request
    simp only [hs]
    rw [if_neg hexp]
    simp only [h1, h2]
    unfold JVal.getItem
    simp only [h3]

/-- C2 counterexample: a payload that decrypts fine and parses to `{}` makes
`handle_credential_request` raise an uncaught `KeyError('timestamp')` — it does
not return the `{"status": "error", "error": "Decryption failed"}` dict the
claim requires for a missing field. -/
theorem missing_field_raises_keyerror :
    handle_credential_request credEnvNoTsW none [("sess_w", sessW)] "sess_w" "" =
      .error (.keyError "timestamp") ∧
    (handle_credential_request credEnvNoTsW none [("sess_w", sessW)] "sess_w" "").isOk
      = false := by
  have hmain : handle_credential_request credEnvNoTsW none [("sess_w", sessW)]
      "sess_w" "" = .error (.keyError "timestamp") := by
    unfold handle_credential_request
    simp only [show alookup [("sess_w", sessW)] "sess_w" = some sessW from rfl]
    rw [if_neg (by decide)]
    simp only [sessW_decrypt_empty]
    unfold credEnvNoTsW credEnvW JVal.getItem
    simp
  exact ⟨hmain, by rw [hmain]; rfl⟩

/-- Witness for C2's amended theorem: the missing-timestamp arm at the same
concrete input. -/
theorem decryption_failure_vs_missing_field_witness :
    handle_credential_request credEnvNoTsW none [("sess_w", sessW)] "sess_w" "" =
      .error (.keyError "timestamp") :=
  (decryption_failure_vs_missing_field credEnvNoTsW none [("sess_w", sessW)]
    "sess_w" "" sessW rfl (by decide)).2.2 [] [] sessW_decrypt_empty rfl rfl

/-- A string with prefix `p` differs from `t` whenever `p` is not the
corresponding initial segment of `t`. -/
theorem append_ne_of_take_ne (p e t : String)
    (h : ¬ p.data = t.data.take p.data.length) : p ++ e ≠ t := by
  intro heq
  apply h
  have hd : p.data ++ e.data = t.data := by
    cases p with
    | mk pd =>
      cases e with
      | mk ed => exact congrArg String.data heq
  rw [← hd, List.take_left]

/-- Every non-raising outcome of the vault try block is a "No credential found"
error, the incomplete-record error, or an approved ciphertext. -/
theorem vaultAttempt_ok_shapes (env : CredEnv) (s : Session) (domain : JVal)
    (r : CredResult) (h : vaultAttempt env s domain = .ok r) :
    (∃ d, r = .errorMsg ("No credential found for " ++ d)) ∨
    r = .errorMsg "Incomplete credential (missing username or password)" ∨
    (∃ ct, r = .approved ct) := by
  unfold vaultAttempt at h
  rcases h1 : env.list_items domain s.bitwarden_session_token with e | items
  · simp only [h1] at h
    exact Except.noConfusion h
  · simp only [h1] at h
    rcases h2 : findLoginItem items with e | oi
    · simp only [h2] at h
      exact Except.noConfusion h
    · simp only [h2] at h
      cases oi with
      | none =>
        simp only [Except.ok.injEq] at h
        exact Or.inl ⟨env.render domain, h.symm⟩
      | some li =>
        rcases h3 : li.pyGetD "login" (.obj []) with e | login
        · simp only [h3] at h
          exact Except.noConfusion h
        · simp only [h3] at h
          rcases h4 : login.pyGet "username" with e | username
          · simp only [h4] at h
            exact Except.noConfusion h
          · simp only [h4] at h
            rcases h5 : login.pyGet "password" with e | password
            · simp only [h5] at h
              exact Except.noConfusion h
            · simp only [h5] at h
              by_cases hf : (jvalFalsy username || jvalFalsy password) = true
              · rw [if_pos hf] at h
                simp only [Except.ok.injEq] at h
                exact Or.inr (Or.inl h.symm)
              · rw [if_neg hf] at h
                rcases h6 : s.pake_handler.encrypt env.enc_nonce
                    (env.json_dumps (JVal.obj
                      [("username", username.getD .null),
                       ("password", password.getD .null),
                       ("timestamp", .str (env.isofmt env.now ++ "Z")),
                       ("nonce", .str env.cred_nonce_hex)])) with e | ct
                · simp only [h6] at h
                  exact Except.noConfusion h
                · simp only [h6, Except.ok.injEq] at h
                  exact Or.inr (Or.inr ⟨ct, h.symm⟩)

/-- The vault-retrieval phase can never produce the replay-rejection error. -/
theorem vaultRetrieve_ne_replay (env : CredEnv) (s : Session) (domain : JVal) :
    vaultRetrieve env s domain ≠ .errorMsg "Request too old (possible replay attack)" := by
  unfold vaultRetrieve
  rcases hva : vaultAttempt env s domain with e | r
  · simp only [hva]
    intro hcontra
    rw [CredResult.errorMsg.injEq] at hcontra
    exact append_ne_of_take_ne _ _ _ (by decide) hcontra
  · simp only [hva]
    rcases vaultAttempt_ok_shapes env s domain r hva with ⟨d, hr⟩ | hr | ⟨ct, hr⟩
    · subst hr
      intro hcontra
      rw [CredResult.errorMsg.injEq] at hcontra
      exact append_ne_of_take_ne _ _ _ (by decide) hcontra
    · subst hr
      intro hcontra
      rw [CredResult.errorMsg.injEq] at hcontra
      exact absurd hcontra (by decide)
    · subst hr
      intro hcontra
      exact CredResult.noConfusion hcontra

/-- C1 (amended): under a valid, unexpired session and a well-formed request,
`handle_credential_request` returns the replay error exactly when
`now − timestamp > 5 minutes`; there is no lower-bound check, so a timestamp
arbitrarily far in the future (age < −5 minutes) is accepted. -/
theorem replay_rejection_iff (env : CredEnv) (cb : Option CallbackHandler)
    (sessions : SessionMap) (sid payload : String) (s : Session) (pt : List Nat)
    (rd : JVal) (ts_str : String) (ts : Int)
    (hs : alookup sessions sid = some s)
    (hexp : ¬ env.now > s.expires_at)
    (hdec : s.pake_handler.decrypt payload = .ok pt)
    (hjson : env.json_loads pt = .ok rd)
    (hts : rd.getItem "timestamp" = .ok (.str ts_str))
    (hiso : env.fromiso (rstripZ ts_str) = some ts) :
    (∃ m tr, handle_credential_request env cb sessions sid payload =
        .ok (.errorMsg "Request too old (possible replay attack)", m, tr)) ↔
      env.now - ts > 300 := by
  unfold handle_credential_request
  simp only [hs]
  rw [if_neg hexp]
  simp only [hdec, hjson, hts, hiso]
  by_cases hage : env.now - ts > 300
  · rw [if_pos hage]
    simp only [hage, iff_true]
    exact ⟨_, _, rfl⟩
  · rw [if_neg hage]
    simp only [hage, iff_false]
    rintro ⟨m, tr, hres⟩
    cases cb with
    | none =>
      simp only [Except.ok.injEq, Prod.mk.injEq, CredResult.errorMsg.injEq] at hres
      exact absurd hres.1 (by decide)
    | some cbf =>
      rcases hdom : rd.getItem "domain" with e | domain
      · simp only [hdom] at hres
        exact Except.noConfusion hres
      · simp only [hdom] at hres
        rcases hrea : rd.getItem "reason" with e | reason
        · simp only [hrea] at hres
          exact Except.noConfusion hres
        · simp only [hrea] at hres
          by_cases hap :
              (cbf { s with last_access := env.now } domain reason).approved = true
          · rw [if_pos hap] at hres
            simp only [Except.ok.injEq, Prod.mk.injEq] at hres
            exact vaultRetrieve_ne_replay env { s with last_access := env.now }
              domain hres.1
          · rw [if_neg hap] at hres
            simp only [Except.ok.injEq, Prod.mk.injEq] at hres
            exact CredResult.noConfusion hres.1

/-- Environment whose request timestamp parses to 600 s in the future. -/
def credEnvFutureW : CredEnv := { credEnvW with fromiso := fun _ => some 600 }

/-- Environment whose clock is 301 s past the request timestamp. -/
def credEnvLateW : CredEnv := { credEnvW with now := 301 }

/-- C1 counterexample: a request whose timestamp lies 600 seconds in the future
(age = −600, well below −5 minutes) is not rejected as a replay: the code
proceeds past the timestamp check and (with no handler registered) returns
`error("No approval handler registered")`, not the replay error the claim
demands whenever the timestamp differs from now by more than 5 minutes. -/
theorem future_timestamp_not_rejected :
    ((0 : Int) - 600 < -300) ∧
    handle_credential_request credEnvFutureW none [("sess_w", sessW)] "sess_w" "" =
      .ok (.errorMsg "No approval handler registered",
        ainsert [("sess_w", sessW)] "sess_w" { sessW with last_access := 0 }, []) := by
  refine ⟨by decide, ?_⟩
  unfold handle_credential_request
  simp only [show alookup [("sess_w", sessW)] "sess_w" = some sessW from rfl]
  rw [if_neg (by decide)]
  simp only [sessW_decrypt_empty,
    show credEnvFutureW.json_loads [] = .ok rdFullW from rfl,
    show rdFullW.getItem "timestamp" =
      .ok (.str "2025-01-01T00:00:00.000000Z") from rfl,
    show credEnvFutureW.fromiso (rstripZ "2025-01-01T00:00:00.000000Z") =
      some 600 from rfl]
  rw [if_neg (by decide)]
  rfl

/-- Witness for C1's amended theorem: with the clock 301 s past the request
timestamp the replay error is returned. -/
theorem replay_rejection_iff_witness :
    (∃ m tr, handle_credential_request credEnvLateW none [("sess_w", sessW)]
        "sess_w" "" =
      .ok (.errorMsg "Request too old (possible replay attack)", m, tr)) ∧
    ((301 : Int) - 0 > 300) :=
  ⟨(replay_rejection_iff credEnvLateW none [("sess_w", sessW)] "sess_w" "" sessW []
      rdFullW "2025-01-01T00:00:00.000000Z" 0 rfl (by decide) sessW_decrypt_empty
      rfl rfl rfl).mpr (by decide),
   by decide⟩
